import Mathlib

/-!
Shallow embedding of the partnered-youtube-reddit bot (`src/main.ts`).

JavaScript strings are modelled as Lean `String` (operated on through
`String.data : List Char` so that every operation is structurally recursive
and kernel-evaluable).  JavaScript numbers that can be `NaN` are modelled as
`Option Int` (`none` = `NaN`); timestamps are `Int` unix seconds.  Fallible
JavaScript code that can throw is modelled with `Except JsError`.
-/

/-- A thrown JavaScript runtime error (e.g. destructuring `undefined`). -/
inductive JsError where
  | typeError
  deriving Repr, DecidableEq

/-- The JavaScript whitespace class `\s` (also used by `String.prototype.trim`):
tab, LF, VT, FF, CR, space, NBSP, Ogham space, en-quad..hair-space,
LS, PS, NNBSP, MMSP, ideographic space, BOM. -/
def isJsWhitespace (c : Char) : Bool :=
  c.val == 9 || c.val == 10 || c.val == 11 || c.val == 12 || c.val == 13 ||
  c.val == 32 || c.val == 160 || c.val == 0x1680 ||
  (0x2000 ≤ c.val && c.val ≤ 0x200A) ||
  c.val == 0x2028 || c.val == 0x2029 || c.val == 0x202F || c.val == 0x205F ||
  c.val == 0x3000 || c.val == 0xFEFF

/-- Decides whether `needle` occurs as a contiguous substring of the second list. -/
def listHasSubstring (needle : List Char) : List Char → Bool
  | [] => needle.isEmpty
  | c :: t => needle.isPrefixOf (c :: t) || listHasSubstring needle t

/-- JavaScript `s.includes(sub)` (case-sensitive substring test). -/
def strIncludes (s sub : String) : Bool :=
  listHasSubstring sub.data s.data

/-- Case-insensitive substring test; models `new RegExp(pat, "i").test(s)` for a
pattern with no metacharacters (Reddit usernames are alphanumeric/underscore/dash). -/
def strIncludesCI (s sub : String) : Bool :=
  listHasSubstring (sub.data.map Char.toLower) (s.data.map Char.toLower)

/-- JavaScript `s.startsWith(p)`. -/
def strStartsWith (s p : String) : Bool :=
  p.data.isPrefixOf s.data

/-- JavaScript `s.replace(pat, rep)` for a plain-string pattern: replaces the
first occurrence only. -/
def listReplaceOnce (pat rep : List Char) : List Char → List Char
  | [] => if pat.isPrefixOf ([] : List Char) then rep else []
  | c :: t =>
      if pat.isPrefixOf (c :: t) then rep ++ (c :: t).drop pat.length
      else c :: listReplaceOnce pat rep t

/-- JavaScript `s.replace(pat, rep)` on strings (first occurrence only). -/
def jsReplaceOnce (s pat rep : String) : String :=
  ⟨listReplaceOnce pat.data rep.data s.data⟩

/-- Fuel-driven worker for `jsSplit`; fuel `rest.length + 1` always suffices
because a nonempty separator consumes at least one character per step. -/
def jsSplitAux (sep : List Char) : Nat → List Char → List Char → List (List Char)
  | 0, rest, acc => [acc.reverse ++ rest]
  | fuel + 1, rest, acc =>
      if sep ≠ [] && sep.isPrefixOf rest then
        acc.reverse :: jsSplitAux sep fuel (rest.drop sep.length) []
      else
        match rest with
        | [] => [acc.reverse]
        | c :: t => jsSplitAux sep fuel t (c :: acc)

/-- JavaScript `s.split(sep)` for a plain-string separator. -/
def jsSplit (s sep : String) : List String :=
  if sep.data = [] then s.data.map (fun c => ⟨[c]⟩)
  else (jsSplitAux sep.data (s.data.length + 1) s.data []).map (fun l => (⟨l⟩ : String))

/-- JavaScript `String.prototype.trim` (JS whitespace incl. line terminators). -/
def jsTrim (s : String) : String :=
  ⟨((s.data.dropWhile isJsWhitespace).reverse.dropWhile isJsWhitespace).reverse⟩

/-- Decimal digits to a natural number. -/
def digitsToNat (ds : List Char) : Nat :=
  ds.foldl (fun acc c => acc * 10 + (c.toNat - 48)) 0

/-- JavaScript string-to-number coercion (unary `+`), restricted to optionally
signed decimal integer literals: the empty/blank string coerces to `0`, signed
digit strings to their value, and everything else to `NaN` (`none`).  The
subscriber/view counts this program coerces are decimal integer strings. -/
def jsUnaryPlusInt (s : String) : Option Int :=
  match (jsTrim s).data with
  | [] => some (0 : Int)
  | '-' :: ds =>
      if ds ≠ [] && ds.all Char.isDigit then some (-(digitsToNat ds : Int)) else none
  | '+' :: ds =>
      if ds ≠ [] && ds.all Char.isDigit then some ((digitsToNat ds : Int)) else none
  | ds =>
      if ds.all Char.isDigit then some ((digitsToNat ds : Int)) else none

/-- JavaScript `parseInt(s)` in base 10: trims, reads an optional sign and the
longest leading run of decimal digits, `NaN` (`none`) if there is none. -/
def parseIntJs (s : String) : Option Int :=
  match (jsTrim s).data with
  | '-' :: r =>
      let ds := r.takeWhile Char.isDigit
      if ds = [] then none else some (-(digitsToNat ds : Int))
  | '+' :: r =>
      let ds := r.takeWhile Char.isDigit
      if ds = [] then none else some ((digitsToNat ds : Int))
  | r =>
      let ds := r.takeWhile Char.isDigit
      if ds = [] then none else some ((digitsToNat ds : Int))

/-- JavaScript number-to-string for a possibly-NaN number (`none` prints "NaN"). -/
def numToString : Option Int → String
  | none => "NaN"
  | some n => toString n

/-- JavaScript template-literal rendering of a possibly-`undefined` string. -/
def showJsOpt : Option String → String
  | none => "undefined"
  | some s => s

/-- Truthiness of a possibly-`undefined` JavaScript string: `undefined` and the
empty string are falsy. -/
def jsTruthyStr : Option String → Bool
  | none => false
  | some s => s ≠ ""

example : jsUnaryPlusInt "50000" = some 50000 := by decide
example : jsUnaryPlusInt "" = some 0 := by decide
example : jsUnaryPlusInt "12a" = none := by decide
example : parseIntJs "12a" = some 12 := by decide
example : jsSplit "a??b" "?" = ["a", "", "b"] := by decide
example : jsSplit "https://www.youtube.com/abc" "https://www.youtube.com/" = ["", "abc"] := by decide
example : jsReplaceOnce "https://youtube.com/x" "https://youtube.com" "https://www.youtube.com" = "https://www.youtube.com/x" := by decide

/-!
## Link Extractor

`main.ts` line 110: `const youtubeLinkReg = /https:\/\/(www\.)?youtube\.com[^\s\[\])(]*/;`
The regex is a literal `https://`, an optional literal `www.`, a literal
`youtube.com`, then a greedy run of characters that are not whitespace and not
one of `[`, `]`, `)`, `(`.  The two alternation branches begin with distinct
fixed strings, so matching at a position is deterministic, and
`String.prototype.match` returns the leftmost match.
-/

/-- The characters excluded by the regex character class `[^\s\[\])(]`. -/
def isLinkStopChar (c : Char) : Bool :=
  isJsWhitespace c || c == '[' || c == ']' || c == ')' || c == '('

/-- Attempts to match `youtubeLinkReg` anchored at the start of `s`. -/
def youtubeMatchAt (s : List Char) : Option (List Char) :=
  if ("https://www.youtube.com".data).isPrefixOf s then
    some ("https://www.youtube.com".data ++
      (s.drop ("https://www.youtube.com".data).length).takeWhile (fun c => !isLinkStopChar c))
  else if ("https://youtube.com".data).isPrefixOf s then
    some ("https://youtube.com".data ++
      (s.drop ("https://youtube.com".data).length).takeWhile (fun c => !isLinkStopChar c))
  else
    none

/-- Leftmost match of `youtubeLinkReg` in `s`; models `body.match(youtubeLinkReg)?.[0]`. -/
def youtubeFirstMatch : List Char → Option (List Char)
  | [] => none
  | c :: t =>
      match youtubeMatchAt (c :: t) with
      | some m => some m
      | none => youtubeFirstMatch t

/-- The Link Extractor (`main.ts` lines 140-142): a falsy (absent or empty) body
yields the bare homepage sentinel; otherwise the first regex match, or the empty
string when there is none (`match(...)?.[0] || ""`). -/
def extractYoutubeLink (body : Option String) : String :=
  match body with
  | none => "https://www.youtube.com"
  | some b =>
      if b = "" then "https://www.youtube.com"
      else
        match youtubeFirstMatch b.data with
        | some m => ⟨m⟩
        | none => ""

example : extractYoutubeLink (some "check out https://www.youtube.com/channel/UC123 nice") =
    "https://www.youtube.com/channel/UC123" := by decide
example : extractYoutubeLink (some "go https://youtube.com/user/bob[link]") =
    "https://youtube.com/user/bob" := by decide
example : extractYoutubeLink (some "see https://m.youtube.com/@alice please") = "" := by decide
example : extractYoutubeLink none = "https://www.youtube.com" := by decide
example : extractYoutubeLink (some "") = "https://www.youtube.com" := by decide

/-!
## Reddit data model and the Comment Filter (`getRedditComments`, lines 109-163)

A raw thread reply (`RedditChild`) carries a `kind` tag and a data record; for
an overflow ("more") marker `data.children` is the list of extra comment ids.
The secondary `/api/morechildren` fetch is an external call and is modelled as
a function from those ids to the fetched things.  Times are unix seconds; the
filter compares moments strictly (`isBetween` with default exclusive bounds).
-/

structure ChildData where
  author : String
  body : Option String
  created : Int
  created_utc : Int
  children : List String := []
  deriving Repr, DecidableEq

structure RedditChild where
  kind : String
  data : ChildData
  deriving Repr, DecidableEq

/-- The `Comment` record built by the Comment Filter.  `created_utc` is a
JavaScript number that is `NaN` (`none`) when rebuilt from an unparseable
stored id (`parseInt` in `updateFlairForApprovedLinks`). -/
structure Comment where
  author : String
  body : Option String
  created : Int
  created_utc : Option Int
  youtubeLink : String
  deriving Repr, DecidableEq

/-- The `.map` step of `getRedditComments` (lines 139-153). -/
def toComment (child : RedditChild) : Comment :=
  { author := child.data.author
    body := child.data.body
    created := child.data.created
    created_utc := some child.data.created_utc
    youtubeLink := extractYoutubeLink child.data.body }

/-- The final `.filter` of `getRedditComments` (lines 154-160):
`item.youtubeLink?.length && moment.unix(item.created).utc().isBetween(startDate, now)`;
`isBetween` excludes both endpoints. -/
def keepComment (startDate now : Int) (item : Comment) : Bool :=
  item.youtubeLink.length != 0 && (startDate < item.created && item.created < now)

/-- The Comment Filter (`getRedditComments`, lines 109-163).  `children` is
`replies.data.children`; `fetchMore` models the `/api/morechildren` call.  When
no child of kind `"more"` is found the function logs and returns the empty
list; otherwise the root children (including the marker itself) are
concatenated with the fetched extra things, deleted authors are dropped, each
remaining child is mapped to a `Comment`, and the link/date filter is applied. -/
def getRedditComments (children : List RedditChild)
    (fetchMore : List String → List RedditChild) (startDate now : Int) : List Comment :=
  match children.find? (fun reply => reply.kind == "more") with
  | none => []
  | some more =>
      let allComments := children ++ fetchMore more.data.children
      ((allComments.filter (fun child => child.data.author != "[deleted]")).map toComment).filter
        (keepComment startDate now)

/-!
## YouTube channel lookup and the Ownership Verifier (`verifyChannel`, lines 170-246)

The `youtube.channels.list` call is external and is modelled as a function
from the request parameters to the response.  `formatYoutubeLink` lives in
`./util`, which is not part of the sources; `verifyChannel` is therefore
parameterised over it, and every theorem below holds for an arbitrary
formatter.  The in-memory `approvedLinks` array is threaded explicitly.
A response whose `items` field is a present but empty array makes the code
destructure `channel.items[0]` (`undefined`), which throws a `TypeError`;
that path is modelled with `Except.error`.
-/

structure Snippet where
  description : Option String
  deriving Repr, DecidableEq

structure Statistics where
  subscriberCount : Option String
  viewCount : Option String
  deriving Repr, DecidableEq

structure ChannelItem where
  snippet : Option Snippet
  statistics : Option Statistics
  deriving Repr, DecidableEq

structure ChannelListResponse where
  items : Option (List ChannelItem)
  deriving Repr, DecidableEq

/-- The `youtube_v3.Params$Resource$Channels$List` fields this program sets. -/
structure ChannelListParams where
  part : List String := ["snippet,statistics"]
  forUsername : Option String := none
  forHandle : Option String := none
  id : Option (List String) := none
  deriving Repr, DecidableEq

structure ApprovedLink where
  userId : String
  commentId : String
  channelLink : String
  deriving Repr, DecidableEq

structure VerificationReddit where
  comment : Comment
  deriving Repr, DecidableEq

structure VerificationYoutube where
  snippet : Snippet
  statistics : Statistics
  deriving Repr, DecidableEq

structure Verification where
  reddit : VerificationReddit
  youtube : VerificationYoutube
  deriving Repr, DecidableEq

/-- Lines 183-187: the bare-domain and mobile-subdomain rewrites, the external
`formatYoutubeLink` from `./util` (parameter `format`), and `.split("?")[0]`. -/
def formattedLinkOf (format : String → String) (link : String) : String :=
  (jsSplit
    (format (jsReplaceOnce (jsReplaceOnce link "https://youtube.com" "https://www.youtube.com")
      "https://m.youtube.com" "https://www.youtube.com"))
    "?").headD ""

/-- The ApprovedLink triple pushed on a successful verification (lines 225-229). -/
def approvedTripleOf (format : String → String) (comment : Comment) : ApprovedLink :=
  { userId := comment.author
    commentId := numToString comment.created_utc
    channelLink := formattedLinkOf format comment.youtubeLink }

/-- JavaScript `s.replace(/^@/, "")`: removes one leading `@` if present. -/
def dropLeadingAt (s : String) : String :=
  match s.data with
  | '@' :: t => ⟨t⟩
  | _ => s

/-- The Channel Resolver (lines 197-213): inspects the slug and fills in the
lookup parameters.  `slug.split("channel/")[1]` is only assigned to `id` when
it is truthy (`if (channelId)`). -/
def resolveChannelParams (slug : String) : ChannelListParams :=
  if strIncludes slug "user/" then
    { forUsername := (jsSplit slug "user/")[1]? }
  else if strIncludes slug "channel/" then
    match (jsSplit slug "channel/")[1]? with
    | some cid => if cid = "" then {} else { id := some [cid] }
    | none => {}
  else if strStartsWith slug "@" then
    { forHandle := some (dropLeadingAt slug) }
  else
    { forUsername := some slug }

/-- The Ownership Verifier (`verifyChannel`, lines 170-246), threading the
in-memory approved-link list and modelling a thrown `TypeError` as
`Except.error`.  Returns the result together with the updated list. -/
def verifyChannel (format : String → String)
    (lookup : ChannelListParams → ChannelListResponse)
    (comment : Comment) (skipDescriptionCheck : Bool)
    (approvedLinks : List ApprovedLink) :
    Except JsError (Option Verification) × List ApprovedLink :=
  if comment.youtubeLink = "" then (.ok none, approvedLinks)
  else
    let formatted := formattedLinkOf format comment.youtubeLink
    match (jsSplit formatted "https://www.youtube.com/")[1]? with
    | none => (.ok none, approvedLinks)
    | some slug =>
        if slug = "" then (.ok none, approvedLinks)
        else
          match (lookup (resolveChannelParams slug)).items with
          | none => (.ok none, approvedLinks)
          | some items =>
              match items[0]? with
              | none => (.error .typeError, approvedLinks)
              | some item =>
                  match item.snippet, item.statistics with
                  | some snippet, some statistics =>
                      match snippet.description with
                      | some d =>
                          if d = "" then (.ok none, approvedLinks)
                          else if strIncludesCI d ("u/" ++ comment.author)
                              || skipDescriptionCheck then
                            (.ok (some { reddit := { comment := comment }
                                         youtube := { snippet := snippet
                                                      statistics := statistics } }),
                              approvedLinks ++
                                [{ userId := comment.author
                                   commentId := numToString comment.created_utc
                                   channelLink := formatted }])
                          else (.ok none, approvedLinks)
                      | none => (.ok none, approvedLinks)
                  | _, _ => (.ok none, approvedLinks)


/-!
## Tier Classifier and `setFlair` (lines 254-281)

`MINIMUM_SUB_COUNT` / `MINIMUM_VIEW_COUNT` default to `100000` / `1000000`;
the flair template and emoji identifiers come from the environment and may be
absent, so all four are carried in a configuration record.  The counts arrive
as strings and are coerced with unary `+` (possibly to `NaN`); a `NaN` count
compares `false` against any threshold.  The source computes the tier
condition twice, once for the template id and once for the emoji id.
-/

structure FlairConfig where
  firstTierFlairId : Option String
  firstTierEmojiId : Option String
  secondTierFlairId : Option String
  secondTierEmojiId : Option String
  minSubCount : Int
  minViewCount : Int
  deriving Repr, DecidableEq

/-- `FlairConfig` with the spec defaults `100000` / `1000000`. -/
def defaultFlairConfig : FlairConfig :=
  { firstTierFlairId := some "first-tier-template"
    firstTierEmojiId := some "first-tier-emoji"
    secondTierFlairId := some "second-tier-template"
    secondTierEmojiId := some "second-tier-emoji"
    minSubCount := 100000
    minViewCount := 1000000 }

/-- JavaScript `>=` where the left operand may be `NaN` (`none`): any
comparison against `NaN` is false. -/
def numGe (a : Option Int) (b : Int) : Bool :=
  match a with
  | none => false
  | some x => decide (x ≥ b)

/-- The tier condition of lines 264 and 269:
`subCount >= +MINIMUM_SUB_COUNT || viewCount >= +MINIMUM_VIEW_COUNT`. -/
def classify (subCount viewCount : Option Int) (minSub minView : Int) : Bool :=
  numGe subCount minSub || numGe viewCount minView

/-- Modelled from the spec: `formatNumber` from `./util` (missing from the
sources) produces human-formatted, thousands-separated counts
("1,234,567"-style, section 4.5 of the spec); `NaN` renders as "NaN". -/
def groupThousandsAux : Nat → List Char → List Char
  | 0, l => l
  | fuel + 1, l =>
      if l.length ≤ 3 then l
      else l.take 3 ++ ',' :: groupThousandsAux fuel (l.drop 3)

/-- Modelled from the spec: see `groupThousandsAux`. -/
def formatNumber : Option Int → String
  | none => "NaN"
  | some i =>
      (if i < 0 then "-" else "") ++
        ⟨(groupThousandsAux (toString i.natAbs).data.length
            (toString i.natAbs).data.reverse).reverse⟩

example : formatNumber (some 1234567) = "1,234,567" := by decide
example : formatNumber (some 50000) = "50,000" := by decide
example : formatNumber (some 200) = "200" := by decide

/-- The badge text of lines 275-277:
`` `:${flairEmojiId}: Subs: ${formatNumber(subCount)} Views: ${formatNumber(viewCount)}` ``. -/
def mkFlairText (flairEmojiId : Option String) (subCount viewCount : Option Int) : String :=
  ":" ++ showJsOpt flairEmojiId ++ ": Subs: " ++ formatNumber subCount ++
    " Views: " ++ formatNumber viewCount

/-- The body of the `reddit.post(".../api/selectflair", ...)` call. -/
structure FlairPost where
  name : String
  text : String
  flair_template_id : Option String
  deriving Repr, DecidableEq

/-- `setFlair` (lines 254-281): returns the flair write it performs, or `none`
when either count field is falsy (absent or empty) and the write is skipped.
The tier condition is evaluated twice, as in the source. -/
def setFlair (cfg : FlairConfig) (verification : Verification) : Option FlairPost :=
  let statistics := verification.youtube.statistics
  if jsTruthyStr statistics.subscriberCount && jsTruthyStr statistics.viewCount then
    let subCount := jsUnaryPlusInt (statistics.subscriberCount.getD "")
    let viewCount := jsUnaryPlusInt (statistics.viewCount.getD "")
    let flairTemplateId :=
      if classify subCount viewCount cfg.minSubCount cfg.minViewCount then
        cfg.firstTierFlairId
      else cfg.secondTierFlairId
    let flairEmojiId :=
      if classify subCount viewCount cfg.minSubCount cfg.minViewCount then
        cfg.firstTierEmojiId
      else cfg.secondTierEmojiId
    some { name := verification.reddit.comment.author
           text := mkFlairText flairEmojiId subCount viewCount
           flair_template_id := flairTemplateId }
  else none

/-!
## Persistence and the Orchestrator (`main`, lines 283-322)

`readApprovedLinksFromFile` returns `{lastChecked: null, approvedLinks: []}`
when the file does not exist.  `writeApprovedLinksToFile` would write the full
in-memory list together with a fresh timestamp — but the call to it in `main`
(line 320) is commented out, so a run never writes the file.  The external
world (file contents, Reddit responses, the YouTube lookup, the missing
`formatYoutubeLink`) is collected in an `Env`; `mainRun` returns the final
in-memory approved-link list, the flair writes performed, and the state file
written (if any), or the propagated error of a thrown `TypeError`.
-/

structure PersistedState where
  lastChecked : Option Int
  approvedLinks : List ApprovedLink
  deriving Repr, DecidableEq

structure Env where
  fileState : Option PersistedState
  now : Int
  previousDays : Int
  children : List RedditChild
  fetchMore : List String → List RedditChild
  format : String → String
  lookup : ChannelListParams → ChannelListResponse
  cfg : FlairConfig

/-- `readApprovedLinksFromFile` (lines 58-65). -/
def readApprovedLinksFromFile (env : Env) : PersistedState :=
  match env.fileState with
  | none => { lastChecked := none, approvedLinks := [] }
  | some st => st

/-- `writeApprovedLinksToFile` (lines 45-53): the JSON document written —
the full in-memory approved-link list plus a fresh `lastChecked` timestamp. -/
def writeApprovedLinksToFile (now : Int) (approvedLinks : List ApprovedLink) : PersistedState :=
  { lastChecked := some now, approvedLinks := approvedLinks }

structure MainResult where
  approvedLinks : List ApprovedLink
  flairPosts : List FlairPost
  writtenFile : Option PersistedState
  deriving Repr, DecidableEq

/-- The synthetic `Comment` rebuilt from a stored link
(`updateFlairForApprovedLinks`, lines 74-81). -/
def linkToComment (link : ApprovedLink) : Comment :=
  { author := link.userId
    created_utc := parseIntJs link.commentId
    youtubeLink := link.channelLink
    body := some ""
    created := 0 }

/-- `updateFlairForApprovedLinks` (lines 71-88): re-verifies every stored link
with `skipDescriptionCheck = true` and re-applies flair; threads the in-memory
approved-link list and accumulates the flair writes. -/
def updateFlairForApprovedLinks (env : Env) :
    List ApprovedLink → List ApprovedLink → List FlairPost →
    Except JsError (List ApprovedLink × List FlairPost)
  | [], acc, posts => .ok (acc, posts)
  | link :: rest, acc, posts =>
      match verifyChannel env.format env.lookup (linkToComment link) true acc with
      | (.error e, _) => .error e
      | (.ok none, acc2) => updateFlairForApprovedLinks env rest acc2 posts
      | (.ok (some v), acc2) =>
          match setFlair env.cfg v with
          | some p => updateFlairForApprovedLinks env rest acc2 (posts ++ [p])
          | none => updateFlairForApprovedLinks env rest acc2 posts

/-- The per-comment loop of `main` (lines 312-318): full-proof verification
then flair. -/
def verifyLoop (env : Env) :
    List Comment → List ApprovedLink → List FlairPost →
    Except JsError (List ApprovedLink × List FlairPost)
  | [], acc, posts => .ok (acc, posts)
  | c :: rest, acc, posts =>
      match verifyChannel env.format env.lookup c false acc with
      | (.error e, _) => .error e
      | (.ok none, acc2) => verifyLoop env rest acc2 posts
      | (.ok (some v), acc2) =>
          match setFlair env.cfg v with
          | some p => verifyLoop env rest acc2 (posts ++ [p])
          | none => verifyLoop env rest acc2 posts

/-- The Orchestrator (`main`, lines 283-322): rehydrate, re-approve, compute
the incremental window, fetch and filter, verify each new comment.  The
persistence call of line 320 is commented out in the source, so `writtenFile`
is `none` on every completed run. -/
def mainRun (env : Env) : Except JsError MainResult :=
  let st := readApprovedLinksFromFile env
  let links0 : List ApprovedLink := [] ++ st.approvedLinks
  match updateFlairForApprovedLinks env st.approvedLinks links0 [] with
  | .error e => .error e
  | .ok (links1, posts1) =>
      let startDate :=
        match st.lastChecked with
        | some t => t
        | none => env.now - env.previousDays * 86400
      let comments := getRedditComments env.children env.fetchMore startDate env.now
      match verifyLoop env comments links1 posts1 with
      | .error e => .error e
      | .ok (links2, posts2) =>
          .ok { approvedLinks := links2, flairPosts := posts2, writtenFile := none }

/-!
## Concrete fixtures

The overflow ("more") marker's own record lacks `author`/`body`/`created`
fields; `moment.unix(undefined)` is an invalid moment and `isBetween` on it is
false, so the marker never survives the date filter.  The fixture `cMore`
represents those absent fields with values that fail the date filter, matching
that behaviour.
-/

def cChildAlice : RedditChild :=
  { kind := "t1"
    data := { author := "alice"
              body := some "check out https://www.youtube.com/channel/UC123 nice"
              created := 5, created_utc := 5 } }

def cMore : RedditChild :=
  { kind := "more"
    data := { author := "", body := none, created := -100, created_utc := -100
              children := ["e1", "e2"] } }

def cExtraBob : RedditChild :=
  { kind := "t1"
    data := { author := "bob", body := some "https://www.youtube.com/user/bobchan"
              created := 6, created_utc := 6 } }

def cExtraCarol : RedditChild :=
  { kind := "t1"
    data := { author := "carol", body := some "https://youtube.com/@caroltv hi"
              created := 7, created_utc := 7 } }

def cEmptyBody : RedditChild :=
  { kind := "t1"
    data := { author := "dave", body := none, created := 5, created_utc := 5 } }

def cLate : RedditChild :=
  { kind := "t1"
    data := { author := "erin", body := some "https://www.youtube.com/channel/UCX"
              created := 20, created_utc := 5 } }

def commentAlice : Comment :=
  { author := "alice"
    body := some "check out https://www.youtube.com/channel/UC123 nice"
    created := 5, created_utc := some 5
    youtubeLink := "https://www.youtube.com/channel/UC123" }

def itemAlice : ChannelItem :=
  { snippet := some { description := some "Hi I am u/Alice welcome" }
    statistics := some { subscriberCount := some "50000", viewCount := some "200000" } }

def itemOther : ChannelItem :=
  { snippet := some { description := some "someone else entirely" }
    statistics := some { subscriberCount := some "1", viewCount := some "2" } }

def lookupNotFound : ChannelListParams → ChannelListResponse := fun _ => { items := none }

def envTrivial : Env :=
  { fileState := none
    now := 1000
    previousDays := 7
    children := []
    fetchMore := fun _ => []
    format := id
    lookup := lookupNotFound
    cfg := defaultFlairConfig }

def verifAlice (subs views : String) : Verification :=
  { reddit := { comment := commentAlice }
    youtube := { snippet := { description := some "Hi I am u/Alice welcome" }
                 statistics := { subscriberCount := some subs, viewCount := some views } } }

/-- A list never equals itself with one more element appended. -/
theorem self_ne_append_singleton {α : Type} (l : List α) (a : α) : ¬ l = l ++ [a] := by
  intro h
  have hlen := congrArg List.length h
  simp at hlen

/-- A nonempty string has nonzero length. -/
theorem string_length_ne_zero {s : String} (h : s ≠ "") : s.length ≠ 0 := by
  cases s with
  | mk data =>
      cases data with
      | nil => exact absurd rfl h
      | cons c t => simp [String.length]

/-!
## Claims
-/

/-- C1: When the root reply list has no overflow ("more") marker,
`getRedditComments` returns the empty list, discarding every eligible root
comment — contradicting the documented behaviour of proceeding with the root
replies alone.  The conjuncts show: (1) the no-marker call returns `[]`;
(2-4) the dropped root comment was eligible (non-deleted author, non-empty
extracted link, creation time inside the window); (5) with a marker present,
the output does contain root entries first and overflow entries appended, in
source order. -/
theorem getRedditComments_no_marker_returns_empty :
    getRedditComments [cChildAlice] (fun _ => []) 0 10 = [] ∧
    cChildAlice.data.author ≠ "[deleted]" ∧
    (toComment cChildAlice).youtubeLink = "https://www.youtube.com/channel/UC123" ∧
    keepComment 0 10 (toComment cChildAlice) = true ∧
    getRedditComments [cMore, cChildAlice] (fun _ => [cExtraBob, cExtraCarol]) 0 10 =
      [toComment cChildAlice, toComment cExtraBob, toComment cExtraCarol] := by
  refine ⟨rfl, by decide, by decide, by decide, by decide⟩

/-- C2 (counterexample): a run of `main` that completes without a fatal error
writes nothing to the durable state file — `writtenFile` is `none` — because
the `writeApprovedLinksToFile()` call on line 320 is commented out. -/
theorem mainRun_completes_without_persisting :
    mainRun envTrivial = .ok { approvedLinks := [], flairPosts := [], writtenFile := none } :=
  rfl

/-- C2 (amended): after every run of the orchestrator that completes without a
fatal error, no write of the durable state file occurs — the persistence call
is disabled in the source, so the approved links live only in memory. -/
theorem mainRun_never_writes_state_file (env : Env) (r : MainResult)
    (h : mainRun env = .ok r) : r.writtenFile = none := by
  simp only [mainRun] at h
  split at h
  · exact absurd h (by simp)
  · split at h
    · exact absurd h (by simp)
    · injection h with h2
      rw [← h2]

/-- C3: `verifyChannel` at a comment with a non-empty resolvable link.
Conjunct 1: a response whose `items` field is a present but empty list makes
the code destructure `channel.items[0]` (`undefined`) and throw a `TypeError`
— it does not return none.  Conjunct 2: an absent `items` field is handled
gracefully (`.ok none`, "CHANNEL NOT FOUND").  Conjunct 3: with two items in
the response, only the first is considered (the returned `Verification`
carries the first item's snippet and statistics). -/
theorem verifyChannel_throws_on_empty_items_list :
    verifyChannel id (fun _ => { items := some [] }) commentAlice false [] =
      (.error .typeError, []) ∧
    verifyChannel id (fun _ => { items := none }) commentAlice false [] = (.ok none, []) ∧
    verifyChannel id (fun _ => { items := some [itemAlice, itemOther] }) commentAlice false [] =
      (.ok (some { reddit := { comment := commentAlice }
                   youtube := { snippet := { description := some "Hi I am u/Alice welcome" }
                                statistics := { subscriberCount := some "50000"
                                                viewCount := some "200000" } } }),
        [{ userId := "alice", commentId := "5"
           channelLink := "https://www.youtube.com/channel/UC123" }]) := by
  refine ⟨rfl, rfl, rfl⟩

/-- C9: for every formatter, lookup response, comment, skip flag and starting
list, `verifyChannel` returns a `Verification` exactly when it appends the
single ApprovedLink triple (the comment's author, its UTC creation timestamp
stringified, the normalized link) to the in-memory list, and on every path
that returns none the list is left unchanged. -/
theorem verifyChannel_returns_iff_appends (format : String → String)
    (lookup : ChannelListParams → ChannelListResponse) (comment : Comment)
    (skip : Bool) (links : List ApprovedLink) :
    ((∃ v, (verifyChannel format lookup comment skip links).1 = .ok (some v)) ↔
      (verifyChannel format lookup comment skip links).2 =
        links ++ [approvedTripleOf format comment]) ∧
    ((verifyChannel format lookup comment skip links).1 = .ok none →
      (verifyChannel format lookup comment skip links).2 = links) := by
  simp only [verifyChannel]
  repeat' split
  all_goals
    simp [approvedTripleOf, self_ne_append_singleton]

/-- C9 (witness): on the "channel not found" path the approved-link list is
left unchanged. -/
theorem verifyChannel_returns_iff_appends_witness :
    (verifyChannel id lookupNotFound commentAlice false []).2 = [] :=
  (verifyChannel_returns_iff_appends id lookupNotFound commentAlice false []).2 rfl

/-- C4 (counterexample): a raw reply with an absent body gets the sentinel link
`https://www.youtube.com`; since the sentinel is non-empty the comment is NOT
excluded by the Comment Filter — it appears in the output when its creation
time is in the window. -/
theorem emptyBody_comment_not_excluded :
    getRedditComments [cMore, cEmptyBody] (fun _ => []) 0 10 = [toComment cEmptyBody] ∧
    (toComment cEmptyBody).youtubeLink = "https://www.youtube.com" := by
  refine ⟨by decide, by decide⟩

/-- Falsiness of the raw `body` field (`!!child.data.body` is false). -/
def jsFalsyBody : Option String → Bool
  | none => true
  | some s => s == ""

/-- C4 (amended): for every raw reply whose body is empty or absent, the Link
Extractor yields the platform's bare homepage sentinel link; the sentinel is
non-empty, so the Comment Filter's link check does not exclude the comment —
it is kept exactly when its creation time lies in the window. -/
theorem emptyBody_gets_sentinel_and_passes_link_check (child : RedditChild) (s n : Int)
    (h : jsFalsyBody child.data.body = true) :
    extractYoutubeLink child.data.body = "https://www.youtube.com" ∧
    keepComment s n (toComment child) =
      (decide (s < child.data.created) && decide (child.data.created < n)) := by
  have hsent : extractYoutubeLink child.data.body = "https://www.youtube.com" := by
    rcases hbody : child.data.body with _ | b
    · rfl
    · have hb : b = "" := by
        rw [hbody] at h
        simpa [jsFalsyBody] using h
      rw [hb]
      rfl
  refine ⟨hsent, ?_⟩
  have hlen : (("https://www.youtube.com" : String).length != 0) = true := by decide
  simp [keepComment, toComment, hsent, hlen]

/-- C4 (amended, witness): the concrete absent-body reply `cEmptyBody`. -/
theorem emptyBody_gets_sentinel_and_passes_link_check_witness :
    extractYoutubeLink cEmptyBody.data.body = "https://www.youtube.com" ∧
    keepComment 0 10 (toComment cEmptyBody) =
      (decide ((0 : Int) < cEmptyBody.data.created) &&
        decide (cEmptyBody.data.created < 10)) :=
  emptyBody_gets_sentinel_and_passes_link_check cEmptyBody 0 10 rfl

/-- C5: the Link Extractor never matches mobile-subdomain (`m.`) links — the
regex only accepts the `www.`-prefixed and bare-domain forms.  Conjunct 1: a
body whose only channel link is in `m.`-subdomain form extracts to the empty
string (the comment is then dropped), although `verifyChannel` explicitly
normalizes `https://m.youtube.com` links, so they were meant to flow through.
Conjuncts 2-3: `www.`-prefixed and bare-domain links are extracted exactly,
truncated at the first whitespace or bracket character. -/
theorem extractYoutubeLink_misses_mobile_subdomain :
    extractYoutubeLink (some "see https://m.youtube.com/@alice please") = "" ∧
    extractYoutubeLink (some "check out https://www.youtube.com/channel/UC123 nice") =
      "https://www.youtube.com/channel/UC123" ∧
    extractYoutubeLink (some "go https://youtube.com/user/bob[link]") =
      "https://youtube.com/user/bob" := by
  refine ⟨by decide, by decide, by decide⟩

/-- C6 (counterexample): the Comment Filter drops an eligible, link-bearing,
non-deleted entry whose `created_utc` (5) lies strictly inside the window
(0, 10), because the filter actually reads the `created` field (20, outside
the window). -/
theorem filter_ignores_created_utc :
    getRedditComments [cMore, cLate] (fun _ => []) 0 10 = [] ∧
    cLate.data.created_utc = 5 ∧ ((0 : Int) < 5 ∧ (5 : Int) < 10) ∧
    cLate.data.author ≠ "[deleted]" ∧
    (toComment cLate).youtubeLink ≠ "" := by
  refine ⟨by decide, by decide, by decide, by decide, by decide⟩

/-- C6 (amended): given an overflow marker is found, a non-deleted entry of
the candidate list whose extracted link is non-empty is kept by the Comment
Filter exactly when its `created` field (not `created_utc`) lies strictly
between `startDate` (exclusive) and now (exclusive). -/
theorem getRedditComments_keeps_iff_created_in_window
    (children : List RedditChild) (fetchMore : List String → List RedditChild)
    (s n : Int) (more child : RedditChild)
    (hmore : children.find? (fun reply => reply.kind == "more") = some more)
    (hmem : child ∈ children ++ fetchMore more.data.children)
    (hdel : child.data.author ≠ "[deleted]")
    (hlink : (toComment child).youtubeLink ≠ "") :
    (toComment child ∈ getRedditComments children fetchMore s n ↔
      (s < child.data.created ∧ child.data.created < n)) := by
  unfold getRedditComments
  rw [hmore]
  constructor
  · intro hin
    have hkeep := (List.mem_filter.mp hin).2
    unfold keepComment at hkeep
    simp only [toComment, Bool.and_eq_true, decide_eq_true_eq] at hkeep
    exact hkeep.2
  · intro hwin
    apply List.mem_filter.mpr
    refine ⟨List.mem_map_of_mem toComment ?_, ?_⟩
    · exact List.mem_filter.mpr ⟨hmem, by simp [hdel]⟩
    · unfold keepComment
      have hlen : ((toComment child).youtubeLink.length != 0) = true := by
        simpa using string_length_ne_zero hlink
      simp only [toComment] at hlen ⊢
      simp [hlen, hwin.1, hwin.2]

/-- C6 (amended, witness): the eligible root comment `cChildAlice` in a thread
with an overflow marker, with window (0, 10). -/
theorem getRedditComments_keeps_iff_created_in_window_witness :
    (toComment cChildAlice ∈ getRedditComments [cMore, cChildAlice] (fun _ => []) 0 10 ↔
      ((0 : Int) < cChildAlice.data.created ∧ cChildAlice.data.created < 10)) :=
  getRedditComments_keeps_iff_created_in_window [cMore, cChildAlice] (fun _ => []) 0 10
    cMore cChildAlice (by decide) (by decide) (by decide) (by decide)

/-- C7: for every `Verification` whose statistics carry present, non-empty,
parseable `subscriberCount` and `viewCount`, `setFlair` performs exactly one
flair write whose template identifier (and the emoji identifier embedded in
the badge text) is the top-tier one exactly when
`subscriberCount ≥ MIN_SUB_COUNT` or `viewCount ≥ MIN_VIEW_COUNT`, and the
second-tier one otherwise. -/
theorem setFlair_applies_tier_thresholds (cfg : FlairConfig) (v : Verification)
    (s u : String) (sc vc : Int)
    (hs : v.youtube.statistics.subscriberCount = some s)
    (hu : v.youtube.statistics.viewCount = some u)
    (hs0 : s ≠ "") (hu0 : u ≠ "")
    (hsc : jsUnaryPlusInt s = some sc) (hvc : jsUnaryPlusInt u = some vc) :
    setFlair cfg v = some
      { name := v.reddit.comment.author
        text := mkFlairText
          (if sc ≥ cfg.minSubCount ∨ vc ≥ cfg.minViewCount then cfg.firstTierEmojiId
            else cfg.secondTierEmojiId) (some sc) (some vc)
        flair_template_id :=
          if sc ≥ cfg.minSubCount ∨ vc ≥ cfg.minViewCount then cfg.firstTierFlairId
            else cfg.secondTierFlairId } := by
  by_cases h : sc ≥ cfg.minSubCount ∨ vc ≥ cfg.minViewCount
  · have hc : classify (some sc) (some vc) cfg.minSubCount cfg.minViewCount = true := by
      rcases h with h1 | h1 <;> simp [classify, numGe, h1]
    rw [if_pos h, if_pos h]
    simp [setFlair, hs, hu, jsTruthyStr, hs0, hu0, hsc, hvc, hc]
  · have h1 : ¬ sc ≥ cfg.minSubCount := fun hh => h (Or.inl hh)
    have h2 : ¬ vc ≥ cfg.minViewCount := fun hh => h (Or.inr hh)
    have hc : classify (some sc) (some vc) cfg.minSubCount cfg.minViewCount = false := by
      simp [classify, numGe, h1, h2]
    rw [if_neg h, if_neg h]
    simp [setFlair, hs, hu, jsTruthyStr, hs0, hu0, hsc, hvc, hc]

/-- C7 (witness): Scenario A — subscriberCount 50000, viewCount 200000 with the
default thresholds yields the second-tier badge; Scenario B — subscriberCount
150000 yields the top-tier badge. -/
theorem setFlair_applies_tier_thresholds_witness :
    setFlair defaultFlairConfig (verifAlice "50000" "200000") = some
      { name := "alice"
        text := ":second-tier-emoji: Subs: 50,000 Views: 200,000"
        flair_template_id := some "second-tier-template" } ∧
    setFlair defaultFlairConfig (verifAlice "150000" "200000") = some
      { name := "alice"
        text := ":first-tier-emoji: Subs: 150,000 Views: 200,000"
        flair_template_id := some "first-tier-template" } := by
  constructor
  · have h := setFlair_applies_tier_thresholds defaultFlairConfig
      (verifAlice "50000" "200000") "50000" "200000" 50000 200000
      rfl rfl (by decide) (by decide) (by decide) (by decide)
    rw [h]
    norm_num [defaultFlairConfig, mkFlairText, showJsOpt]
    decide
  · have h := setFlair_applies_tier_thresholds defaultFlairConfig
      (verifAlice "150000" "200000") "150000" "200000" 150000 200000
      rfl rfl (by decide) (by decide) (by decide) (by decide)
    rw [h]
    norm_num [defaultFlairConfig, mkFlairText, showJsOpt]
    decide

/-- C8: tier classification is monotonic — if a pair of counts classifies as
top tier, increasing either count (holding the other fixed or also
increasing it) still classifies as top tier. -/
theorem classify_monotone (s v s2 v2 minSub minView : Int)
    (hs : s ≤ s2) (hv : v ≤ v2)
    (h : classify (some s) (some v) minSub minView = true) :
    classify (some s2) (some v2) minSub minView = true := by
  simp only [classify, numGe, Bool.or_eq_true, decide_eq_true_eq] at h ⊢
  rcases h with h1 | h1
  · exact Or.inl (le_trans h1 hs)
  · exact Or.inr (le_trans h1 hv)

/-- C8 (witness): (100000, 0) is top tier at the default thresholds, and so is
the increased pair (150000, 5). -/
theorem classify_monotone_witness :
    classify (some 150000) (some 5) 100000 1000000 = true :=
  classify_monotone 100000 0 150000 5 100000 1000000 (by decide) (by decide) (by decide)

/-- C10: every flair write issued by `setFlair` is tier-consistent — one and
the same tier condition selects both the flair template identifier and the
emoji identifier embedded in the badge text, so a write never pairs the
top-tier template with the second-tier emoji or vice versa. -/
theorem setFlair_tier_consistent (cfg : FlairConfig) (v : Verification) (post : FlairPost)
    (h : setFlair cfg v = some post) :
    ∃ (b : Bool) (subCount viewCount : Option Int),
      post.flair_template_id =
        (if b then cfg.firstTierFlairId else cfg.secondTierFlairId) ∧
      post.text = mkFlairText
        (if b then cfg.firstTierEmojiId else cfg.secondTierEmojiId) subCount viewCount := by
  simp only [setFlair] at h
  split at h
  · injection h with h2
    refine ⟨classify (jsUnaryPlusInt (v.youtube.statistics.subscriberCount.getD ""))
        (jsUnaryPlusInt (v.youtube.statistics.viewCount.getD ""))
        cfg.minSubCount cfg.minViewCount,
      jsUnaryPlusInt (v.youtube.statistics.subscriberCount.getD ""),
      jsUnaryPlusInt (v.youtube.statistics.viewCount.getD ""), ?_, ?_⟩ <;> rw [← h2]
  · exact absurd h (by simp)

/-- C10 (witness): the concrete write for subscriberCount 50000 / viewCount
200000 at the default configuration. -/
theorem setFlair_tier_consistent_witness :
    ∃ (b : Bool) (subCount viewCount : Option Int),
      ({ name := "alice"
         text := ":second-tier-emoji: Subs: 50,000 Views: 200,000"
         flair_template_id := some "second-tier-template" } : FlairPost).flair_template_id =
        (if b then defaultFlairConfig.firstTierFlairId
          else defaultFlairConfig.secondTierFlairId) ∧
      ({ name := "alice"
         text := ":second-tier-emoji: Subs: 50,000 Views: 200,000"
         flair_template_id := some "second-tier-template" } : FlairPost).text = mkFlairText
        (if b then defaultFlairConfig.firstTierEmojiId
          else defaultFlairConfig.secondTierEmojiId) subCount viewCount :=
  setFlair_tier_consistent defaultFlairConfig (verifAlice "50000" "200000") _ rfl

/-- C2 (amended, witness): the trivial completed run writes no state file. -/
theorem mainRun_never_writes_state_file_witness :
    ({ approvedLinks := [], flairPosts := [], writtenFile := none } : MainResult).writtenFile =
      none :=
  mainRun_never_writes_state_file envTrivial
    { approvedLinks := [], flairPosts := [], writtenFile := none } rfl
